import Mathlib

/-!
Verification of the ScraperAnyRun repository's crawl-and-extraction
coordinator against its natural-language specification.

The repository has three Python source files:
  * `scraper.py` — `ReportScraper`: detail-page scraper with a processed-URL
    checkpoint, a bot-challenge detector and an email notifier;
  * `any_run_scraper.py` — `AnyRunScraper` (date-bucket mode): list-page URL
    collector that walks calendar days backwards;
  * `Link Scarper/any_run_scraper.py` — `AnyRunScraper` (plain pagination
    mode): list-page URL collector with a `pages_processed` cursor.

Python strings are modelled as Lean `String` (page text as `List Char` so
everything reduces in the kernel); Python `set` objects are modelled as
duplicate-free `List String` with membership-guarded insertion
(`List.insert`); JSON documents are modelled as association lists of a
small `JValue` type; browser and filesystem effects are modelled as
explicit oracles (functions and event records) passed to the embedded
control flow.
-/

/-! ## Generic character-list utilities

`leadMatch pat s` is `pat` being a prefix of `s`; `hasSub s pat` is `pat`
occurring contiguously inside `s`.  These model Python's `in` operator on
strings and XPath's `contains(...)`. -/

def leadMatch : List Char → List Char → Bool
  | [], _ => true
  | _ :: _, [] => false
  | a :: as, b :: bs => a == b && leadMatch as bs

def hasSub : List Char → List Char → Bool
  | [], pat => leadMatch pat []
  | c :: rest, pat => leadMatch pat (c :: rest) || hasSub rest pat

/-- Model of XPath `translate(., 'ABCDEFGHIJKLMNOPQRSTUVWXYZ',
'abcdefghijklmnopqrstuvwxyz')` applied to one character: ASCII upper-case
letters are mapped to lower-case, everything else is unchanged. -/
def lowerChar (c : Char) : Char :=
  if ('A' ≤ c ∧ c ≤ 'Z') then Char.ofNat (c.toNat + 32) else c

def lowerStr (s : List Char) : List Char := s.map lowerChar

/-! ## C1 — checkpoint / crawl-state saves

`ReportScraper._save_checkpoint` (scraper.py:105-115) and both
`AnyRunScraper._save_state` implementations (any_run_scraper.py:129-145,
`Link Scarper/any_run_scraper.py`:115-130) all persist with

    with open(path, "w") as f:        # truncates the target in place
        json.dump(document, f, indent=2)

There is no temporary file and no rename.  `save_write_states old new`
lists the on-disk contents observable if the process is killed at each
point of such a save: the prior contents `old` (kill before `open`), then
the empty file (kill right after the truncating `open`), then every
partial prefix of the new serialized document as `json.dump` streams it,
ending with the complete `new`. -/

def save_write_states (old new : List Char) : List (List Char) :=
  old :: (List.range (new.length + 1)).map (fun k => new.take k)

/-! ## C9 — challenge-probe text matching

`ReportScraper._is_bot_challenge_present` (scraper.py:262-307) first runs a
case-normalised XPath check — `translate(normalize-space(.), 'A..Z',
'a..z')` must contain both `'we noticed'` and `'requests'` — and only then
falls back to a selector list whose first entry is the case-sensitive
`contains(text(), 'We noticed a large number of requests') or
contains(text(), 'We noticed large number of requests')`.

The Link Scarper's `AnyRunScraper._is_bot_challenge_present`
(`Link Scarper/any_run_scraper.py`:415-453) has no case-normalised check at
all: its only text patterns are the case-sensitive
`contains(text(), 'Suspicious activity') or contains(text(), 'confirm that
you are not a bot')`.

Both functions are modelled here restricted to their text-pattern matching
against the page's visible text (the remaining selectors are structural
CSS/iframe probes that inspect no text). -/

def scraper_text_challenge (t : List Char) : Bool :=
  (hasSub (lowerStr t) ("we noticed".toList) && hasSub (lowerStr t) ("requests".toList))
    || hasSub t ("We noticed a large number of requests".toList)
    || hasSub t ("We noticed large number of requests".toList)

def link_text_challenge (t : List Char) : Bool :=
  hasSub t ("Suspicious activity".toList)
    || hasSub t ("confirm that you are not a bot".toList)

/-! ## C10 / C5 — task-id extraction and the detail-scrape loop

`ReportScraper._extract_task_id` (scraper.py:148-151):

    match = re.search(r"/tasks/([a-f0-9-]+)", url)
    return match.group(1) if match else None

`re.search` takes the earliest position where the whole pattern matches,
and `+` is greedy, so the result is the maximal run of `[a-f0-9-]`
characters after the first `"/tasks/"` that is followed by at least one
such character. -/

def isTaskIdChar (c : Char) : Bool :=
  (('a' ≤ c && c ≤ 'f') || ('0' ≤ c && c ≤ '9') || c == '-')

def extract_task_id_chars : List Char → Option (List Char)
  | [] => none
  | c :: rest =>
    if leadMatch ("/tasks/".toList) (c :: rest) then
      let run := ((c :: rest).drop 7).takeWhile isTaskIdChar
      if run.isEmpty then extract_task_id_chars rest
      else some run
    else extract_task_id_chars rest

def extract_task_id (url : String) : Option String :=
  (extract_task_id_chars url.toList).map (fun cs => String.mk cs)

/-- Record files are named `f"{task_id}_report.json"` (scraper.py:2273). -/
def file_of_task (t : String) : String := t ++ "_report.json"

/-- Environment oracles for `ReportScraper.run`: whether a report page
loads and extracts successfully for a given URL, and whether the k-th
`_save_checkpoint` call succeeds (scraper.py catches and merely logs a
failed checkpoint write). -/
structure ScrapeEnv where
  pageLoads : String → Bool
  ckptWriteOk : Nat → Bool

/-- State threaded through `ReportScraper.run` (scraper.py:2290-2341):
the in-memory `processed_urls` set, the record files written to the output
directory, the URL list stored in the checkpoint file on disk, and the
number of `_save_checkpoint` calls made. -/
structure RunState where
  processed_urls : List String
  files : List String
  disk : List String
  saves : Nat
deriving DecidableEq

/-- Embedding of `ReportScraper.scrape_report` (scraper.py:2233-2288),
abstracted to subsequent effects: returns the extracted task id on success,
the list of record files written, and the number of page navigations
performed.  With no extractable task id it returns `None` before any
navigation; otherwise it navigates once, and on successful extraction
writes `f"{task_id}_report.json"` before returning. -/
def scrape_report (pageLoads : String → Bool) (url : String) :
    Option String × List String × Nat :=
  match extract_task_id url with
  | none => (none, [], 0)
  | some tid =>
    if pageLoads url then (some tid, [file_of_task tid], 1)
    else (none, [], 1)

/-- One iteration of the main loop of `ReportScraper.run`
(scraper.py:2316-2324): scrape, and only if a result came back add the URL
to `processed_urls` and call `_save_checkpoint` (whose failure is caught
and logged, leaving the on-disk checkpoint unchanged). -/
def run_step (env : ScrapeEnv) (st : RunState) (url : String) : RunState :=
  let r := scrape_report env.pageLoads url
  let st1 : RunState := { st with files := st.files ++ r.2.1 }
  match r.1 with
  | some _ =>
    let newProcessed := st1.processed_urls.insert url
    { st1 with
        processed_urls := newProcessed
        disk := if env.ckptWriteOk st1.saves then newProcessed else st1.disk
        saves := st1.saves + 1 }
  | none => st1

def run_urls (env : ScrapeEnv) (urls : List String) (st : RunState) : RunState :=
  urls.foldl (run_step env) st

/-- `ReportScraper.run` first filters out already-processed URLs
(scraper.py:2303: `urls_to_process = [url for url in urls if url not in
self.processed_urls]`) and then iterates. -/
def run_main (env : ScrapeEnv) (urls : List String) (st : RunState) : RunState :=
  run_urls env (urls.filter (fun u => decide (u ∉ st.processed_urls))) st

/-- Invariant tying `processed_urls` and the checkpoint to the record
files: every processed URL has an extractable task id whose record file
has been written, and the on-disk checkpoint only holds processed URLs. -/
def processed_files_inv (st : RunState) : Prop :=
  (∀ u ∈ st.processed_urls, ∃ t, extract_task_id u = some t ∧ file_of_task t ∈ st.files)
    ∧ (∀ u ∈ st.disk, u ∈ st.processed_urls)

/-! ## C3 — persisted crawl-state round-trip

JSON documents are modelled as association lists; `jget` is `dict.get`. -/

inductive JValue where
  | str (s : String)
  | nat (n : Nat)
  | arr (xs : List JValue)
  | null

abbrev JDoc := List (String × JValue)

def jget : JDoc → String → Option JValue
  | [], _ => none
  | (k', v) :: rest, k => if k' = k then some v else jget rest k

def strElems : List JValue → List String
  | [] => []
  | .str s :: rest => s :: strElems rest
  | _ :: rest => strElems rest

/-- Calendar day, the resolution at which `AnyRunScraper` (date-bucket
mode) keeps its `_current_scraping_date` cursor: every assignment to it in
any_run_scraper.py zeroes the time fields. -/
structure PyDate where
  year : Nat
  month : Nat
  day : Nat
deriving DecidableEq

def natToChars (n : Nat) : List Char := Nat.toDigits 10 n

def pad2 (n : Nat) : List Char :=
  if n < 10 then '0' :: natToChars n else natToChars n

/-- `strftime("%m/%d/%Y")`, used by `_save_state`
(any_run_scraper.py:137). -/
def format_mdY (d : PyDate) : String :=
  String.mk (pad2 d.month ++ ('/' :: pad2 d.day) ++ ('/' :: natToChars d.year))

def splitOnChar (sep : Char) : List Char → List (List Char)
  | [] => [[]]
  | c :: rest =>
    let r := splitOnChar sep rest
    if c == sep then [] :: r
    else
      match r with
      | [] => [[c]]
      | g :: gs => (c :: g) :: gs

/-- Python `s.split(',')[0]`: everything before the first comma. -/
def takeBeforeComma (s : List Char) : List Char :=
  s.takeWhile (fun c => !(c == ','))

def charsToNat (s : List Char) : Nat :=
  s.foldl (fun acc c => acc * 10 + (c.toNat - 48)) 0

def parseNatChars (s : List Char) : Option Nat :=
  if s ≠ [] ∧ s.all Char.isDigit then some (charsToNat s) else none

def monthNames : List (List Char) :=
  ["January".toList, "February".toList, "March".toList, "April".toList,
   "May".toList, "June".toList, "July".toList, "August".toList,
   "September".toList, "October".toList, "November".toList, "December".toList]

def parseMonthName (s : List Char) : Option Nat :=
  (monthNames.indexOf? s).map (· + 1)

/-- `datetime.strptime(s, "%d %B %Y")`: 1-2 digit day, full month name,
up-to-4-digit year, separated by single spaces. -/
def strptime_d_B_Y (s : List Char) : Option PyDate :=
  match splitOnChar ' ' s with
  | [ds, ms, ys] =>
    match parseNatChars ds, parseMonthName ms, parseNatChars ys with
    | some d, some m, some y =>
      if 1 ≤ d ∧ d ≤ 31 ∧ ds.length ≤ 2 ∧ ys.length ≤ 4 then some ⟨y, m, d⟩
      else none
    | _, _, _ => none
  | _ => none

/-- `datetime.strptime(s, "%d %B %Y, %H:%M")` followed by
`.replace(hour=0, minute=0, second=0, microsecond=0)`
(any_run_scraper.py:114): the time part must parse for strptime to
succeed, but only the calendar day survives. -/
def strptime_d_B_Y_HM (s : List Char) : Option PyDate :=
  match splitOnChar ',' s with
  | [datePart, timePart] =>
    match timePart with
    | ' ' :: t =>
      match splitOnChar ':' t with
      | [hs, ms] =>
        match parseNatChars hs, parseNatChars ms, strptime_d_B_Y datePart with
        | some h, some mi, some d =>
          if h ≤ 23 ∧ mi ≤ 59 ∧ hs.length ≤ 2 ∧ ms.length ≤ 2 then some d
          else none
        | _, _, _ => none
      | _ => none
    | _ => none
  | _ => none

def leChars : List Char → List Char → Bool
  | [], _ => true
  | _ :: _, [] => false
  | a :: as, b :: bs => if a < b then true else if b < a then false else leChars as bs

def leStr (a b : String) : Bool := leChars a.toList b.toList

def insertSorted (a : String) : List String → List String
  | [] => [a]
  | b :: bs => if leStr a b then a :: b :: bs else b :: insertSorted a bs

/-- Python `sorted(collection)` on a set of URL strings. -/
def sortedStrings : List String → List String
  | [] => []
  | a :: as => insertSorted a (sortedStrings as)

/-- In-memory state of `AnyRunScraper` (date-bucket mode,
any_run_scraper.py): the collected URL set, the display text of the last
row date seen (`_last_processed_date`), and the day currently being
scraped (`_current_scraping_date`). -/
structure AnyRunState where
  collected_urls : List String
  last_processed_date : Option String
  current_scraping_date : Option PyDate
deriving DecidableEq

/-- Field values of a fresh `AnyRunScraper.__init__` before `_load_state()`
runs (any_run_scraper.py:55-66). -/
def freshAnyRunState : AnyRunState := ⟨[], none, none⟩

/-- `AnyRunScraper._save_state` (any_run_scraper.py:129-145): writes the
sorted URL list, the raw `_last_processed_date` display text, the cursor
day formatted as `"%m/%d/%Y"`, and a timestamp. -/
def save_state_ar (s : AnyRunState) (timestamp : Nat) : JDoc :=
  [("collected_urls", JValue.arr ((sortedStrings s.collected_urls).map JValue.str)),
   ("last_processed_date",
     match s.last_processed_date with
     | some d => JValue.str d
     | none => JValue.null),
   ("current_scraping_date",
     match s.current_scraping_date with
     | some d => JValue.str (format_mdY d)
     | none => JValue.null),
   ("timestamp", JValue.nat timestamp)]

/-- First half of `_load_state` (both scrapers): `urls =
data.get("collected_urls", []); if isinstance(urls, list):
self._collected_urls.update(str(url) for url in urls if
isinstance(url, str))`. -/
def load_collected (doc : JDoc) (cur : List String) : List String :=
  match jget doc "collected_urls" with
  | some (JValue.arr xs) => (strElems xs).foldl (fun l u => l.insert u) cur
  | _ => cur

/-- Second half of `AnyRunScraper._load_state` (any_run_scraper.py:
108-118): if `last_processed_date` is a non-empty string it is restored
verbatim and the resume day is re-derived by parsing that display text —
first as `"%d %B %Y, %H:%M"`, then as `"%d %B %Y"` on the part before the
first comma.  The stored `current_scraping_date` field is never read. -/
def load_cursor_ar (doc : JDoc) (s : AnyRunState) : AnyRunState :=
  match jget doc "last_processed_date" with
  | some (JValue.str d) =>
    if d ≠ "" then
      let s2 := { s with last_processed_date := some d }
      match strptime_d_B_Y_HM d.toList with
      | some dt => { s2 with current_scraping_date := some dt }
      | none =>
        match strptime_d_B_Y (takeBeforeComma d.toList) with
        | some dt => { s2 with current_scraping_date := some dt }
        | none => s2
    else s
  | _ => s

/-- `AnyRunScraper._load_state` (any_run_scraper.py:91-127). -/
def load_state_ar (doc : JDoc) (s : AnyRunState) : AnyRunState :=
  load_cursor_ar doc { s with collected_urls := load_collected doc s.collected_urls }

/-- In-memory state of the Link Scarper's `AnyRunScraper`: collected URL
set and the `pages_processed` cursor. -/
structure LinkState where
  collected_urls : List String
  pages_processed : Nat
deriving DecidableEq

def freshLinkState : LinkState := ⟨[], 0⟩

/-- `AnyRunScraper._save_state` (`Link Scarper/any_run_scraper.py`:115-130). -/
def save_state_ls (s : LinkState) (timestamp : Nat) : JDoc :=
  [("collected_urls", JValue.arr ((sortedStrings s.collected_urls).map JValue.str)),
   ("pages_processed", JValue.nat s.pages_processed),
   ("timestamp", JValue.nat timestamp)]

/-- `AnyRunScraper._load_state` (`Link Scarper/any_run_scraper.py`:88-113):
unions the stored URLs and restores `pages_processed` when it is a
non-negative integer (always true of a `Nat` in this model). -/
def load_state_ls (doc : JDoc) (s : LinkState) : LinkState :=
  let s1 : LinkState := { s with collected_urls := load_collected doc s.collected_urls }
  match jget doc "pages_processed" with
  | some (JValue.nat n) => { s1 with pages_processed := n }
  | _ => s1

/-! ## C7 — row scanning / URL collection

`AnyRunScraper._collect_current_page_urls` (any_run_scraper.py:314-330 and
`Link Scarper/any_run_scraper.py`:297-303): for every row, for every link,
read its `href` and add it to the collected set when it is truthy,
contains `"/tasks"` and does not contain `"/browse"`.  A row is modelled
as the list of `href` attributes of its links (`None` when
`get_attribute` returns nothing). -/

def href_ok (h : String) : Bool :=
  h ≠ "" && hasSub h.toList ("/tasks".toList) && !(hasSub h.toList ("/browse".toList))

def collect_links (acc : List String) : List (Option String) → List String
  | [] => acc
  | link :: rest =>
    match link with
    | some href =>
      if href_ok href then collect_links (acc.insert href) rest
      else collect_links acc rest
    | none => collect_links acc rest

def collect_current_page_urls (acc : List String) :
    List (List (Option String)) → List String
  | [] => acc
  | row :: rows => collect_current_page_urls (collect_links acc row) rows

/-! ## C8 — pagination advance

`AnyRunScraper._go_to_next_page` (any_run_scraper.py:338-370 and
identically `Link Scarper/any_run_scraper.py`:329-361): look the next
button up; `NoSuchElementException` → `False`; disabled → `False`;
`next_button.click()` raising `StaleElementReferenceException` → `False`;
the table failing to re-render (`TimeoutException`) → `False`; otherwise
`True`.  The callers run `if not self._go_to_next_page(): break` /
`"No more pages"`. -/

inductive LookupOutcome where
  | found (enabled : Bool)
  | missing
deriving DecidableEq

inductive ClickOutcome where
  | ok
  | stale
deriving DecidableEq

structure NextPageEnv where
  lookup : LookupOutcome
  click : ClickOutcome
  tableReloads : Bool
deriving DecidableEq

def go_to_next_page (e : NextPageEnv) : Bool :=
  match e.lookup with
  | LookupOutcome.missing => false
  | LookupOutcome.found enabled =>
    if !enabled then false
    else
      match e.click with
      | ClickOutcome.stale => false
      | ClickOutcome.ok => if e.tableReloads then true else false

inductive PaginateDecision where
  | nextPage
  | endOfPages
deriving DecidableEq

/-- How the pagination loops interpret the result
(`Link Scarper/any_run_scraper.py`:271-273, any_run_scraper.py:234-236). -/
def run_paginate_step (e : NextPageEnv) : PaginateDecision :=
  if go_to_next_page e then PaginateDecision.nextPage
  else PaginateDecision.endOfPages

/-! ## C4 — resume-page reconciliation

`AnyRunScraper._skip_processed_pages` (`Link Scarper/any_run_scraper.py`:
157-225).  `readings k` is the k-th in-loop `_get_current_page_number()`
result, `adv k` the k-th `_go_to_next_page()` result, `reading0` the
reading taken before the loop. -/

structure SkipResult where
  aligned : Bool
  advances : Nat
deriving DecidableEq

def skip_loop (readings : Nat → Option Nat) (adv : Nat → Bool) (target : Nat) :
    Nat → Nat → SkipResult
  | 0, _ => ⟨false, 0⟩
  | remaining + 1, i =>
    let proceed : SkipResult :=
      if adv i then
        let rest := skip_loop readings adv target remaining (i + 1)
        ⟨rest.aligned, rest.advances + 1⟩
      else ⟨false, 1⟩
    match readings i with
    | some v => if v ≥ target then ⟨true, 0⟩ else proceed
    | none => proceed

def skip_processed_pages (pagesProcessed : Nat) (reading0 : Option Nat)
    (readings : Nat → Option Nat) (adv : Nat → Bool) : SkipResult :=
  if pagesProcessed = 0 then ⟨true, 0⟩
  else
    let target := pagesProcessed + 1
    match reading0 with
    | some c =>
      if c ≥ target then ⟨true, 0⟩
      else
        let toSkip := target - c
        if toSkip = 0 then ⟨true, 0⟩
        else skip_loop readings adv target (max (toSkip + 3) 5) 0
    | none => skip_loop readings adv target (max (pagesProcessed + 3) 5) 0

/-! ## C2 / C6 — challenge handling and notification

The probe (`_is_bot_challenge_present`) is an oracle `Nat → Bool` indexed
by how many probes have been made so far. -/

/-- `ReportScraper._notify_bot_challenge` (scraper.py:309-333): returns
the new `_bot_notification_sent` flag and the number of
`_send_email_notification` attempts.  If already notified, nothing
happens; if SMTP is not configured it returns without setting the flag;
otherwise one send is attempted and — success or delivery failure (caught
and logged) — the flag is set in the `finally` block. -/
def notify_bot_challenge_rs (smtp deliveryOk notified : Bool) : Bool × Nat :=
  if notified then (true, 0)
  else if !smtp then (false, 0)
  else (true, 1)

/-- `ReportScraper._check_for_bot_challenge` (scraper.py:200-249).  Probe
once; absent → reset the notified flag and return `False`.  Present →
notify; if a prompt happened less than 2 s ago (`recentPrompt`) return
`True` at once; otherwise attempt the automated click, re-probe, and if
still present notify again (a no-op thanks to the flag) and block once on
`input()` — then return `True` regardless of the challenge state.
Returns (result, new notified flag, next probe index). -/
def check_for_bot_challenge (probe : Nat → Bool) (smtp deliveryOk recentPrompt : Bool)
    (i : Nat) (notified : Bool) : Bool × Bool × Nat :=
  if probe i = false then (false, false, i + 1)
  else
    let n1 := (notify_bot_challenge_rs smtp deliveryOk notified).1
    if recentPrompt then (true, n1, i + 1)
    else
      if probe (i + 1) = true then
        let n2 := (notify_bot_challenge_rs smtp deliveryOk n1).1
        (true, n2, i + 2)
      else (true, n1, i + 2)

/-- Result of one `_handle_bot_challenge` call in the Link Scarper. -/
structure ChallengeStep where
  blocked : Bool
  notified : Bool
  nextIdx : Nat
deriving DecidableEq

/-- `AnyRunScraper._handle_bot_challenge`
(`Link Scarper/any_run_scraper.py`:385-413): with no configured
`bot_check_selector` it returns `False` without probing at all; otherwise
probe once; absent → reset the flag, `False`; present → notify on the
first occurrence (`_notify_bot_block` sets the flag unconditionally,
line 456), possibly prompt on stdin, and return `True`. -/
def handle_bot_challenge_ls (selectorConfigured : Bool) (probe : Nat → Bool)
    (i : Nat) (notified : Bool) : ChallengeStep :=
  if selectorConfigured = false then ⟨false, notified, i⟩
  else if probe i = false then ⟨false, false, i + 1⟩
  else ⟨true, true, i + 1⟩

/-- The gating loop `while self._handle_bot_challenge(): pass` that the
Link Scarper runs before every interaction
(`Link Scarper/any_run_scraper.py`:191,258,330).  `fuel` bounds how many
iterations we are willing to observe; `none` means the loop was still
blocked after `fuel` iterations. -/
def await_clear_ls (selectorConfigured : Bool) (probe : Nat → Bool) :
    Nat → Nat → Bool → Option (Nat × Bool)
  | 0, _, _ => none
  | fuel + 1, i, n =>
    let r := handle_bot_challenge_ls selectorConfigured probe i n
    if r.blocked then await_clear_ls selectorConfigured probe fuel r.nextIdx r.notified
    else some (r.nextIdx, r.notified)

/-- `AnyRunScraper._handle_bot_challenge` (any_run_scraper.py:394-417):
probe once; absent → reset flag, `False`; present → `_notify_bot_block`
on the first occurrence (it sets the flag first, then attempts the email
only when SMTP is configured, catching delivery failures), attempt the
automated click, re-probe (`p2` — only decides whether to sleep), and
return `True`.  Returns (result, new flag, alert attempts). -/
def handle_bot_challenge_ar (smtp deliveryOk : Bool) (p1 p2 : Bool)
    (notified : Bool) : Bool × Bool × Nat :=
  if p1 = false then (false, false, 0)
  else
    let alerts := if notified then 0 else (if smtp then 1 else 0)
    (true, true, alerts)

/-- Folding `handle_bot_challenge_ar` over a sequence of calls, each with
its pair of probe results; returns the final flag and the total number of
alert attempts.  `delivery k` is the outcome of the k-th email delivery. -/
def run_challenge_calls (smtp : Bool) (delivery : Nat → Bool) :
    List (Bool × Bool) → Bool → Nat → Bool × Nat
  | [], n, _ => (n, 0)
  | p :: rest, n, i =>
    let r := handle_bot_challenge_ar smtp (delivery i) p.1 p.2 n
    let tail := run_challenge_calls smtp delivery rest r.2.1 (i + 1)
    (tail.1, r.2.2 + tail.2)

/-- Number of challenge occurrences observed in a probe sequence: maximal
blocks of `true` readings, given the flag state `prev` before the first
reading. -/
def rising_edges (prev : Bool) : List Bool → Nat
  | [] => 0
  | p :: rest => (if p && !prev then 1 else 0) + rising_edges p rest

/-! ## Helper lemmas on `leadMatch` and `hasSub` -/

theorem leadMatch_nil_eq {p : List Char} (h : leadMatch p [] = true) : p = [] := by
  cases p with
  | nil => rfl
  | cons a as => simp [leadMatch] at h

theorem hasSub_nil_pat (s : List Char) : hasSub s [] = true := by
  cases s with
  | nil => rfl
  | cons c rest => simp [hasSub, leadMatch]

theorem leadMatch_trans {a b c : List Char} (hab : leadMatch a b = true)
    (hbc : leadMatch b c = true) : leadMatch a c = true := by
  induction a generalizing b c with
  | nil => rfl
  | cons x xs ih =>
    cases b with
    | nil => simp [leadMatch] at hab
    | cons y ys =>
      cases c with
      | nil => simp [leadMatch] at hbc
      | cons z zs =>
        simp only [leadMatch, Bool.and_eq_true, beq_iff_eq] at hab hbc ⊢
        exact ⟨hab.1.trans hbc.1, ih hab.2 hbc.2⟩

theorem hasSub_of_leadMatch {p s q : List Char} (hps : leadMatch p s = true)
    (hpq : hasSub p q = true) : hasSub s q = true := by
  induction s generalizing p with
  | nil =>
    have hp := leadMatch_nil_eq hps
    subst hp
    exact hpq
  | cons c rest ih =>
    cases p with
    | nil =>
      have hq : q = [] := leadMatch_nil_eq hpq
      subst hq
      exact hasSub_nil_pat _
    | cons a as =>
      simp only [leadMatch, Bool.and_eq_true, beq_iff_eq] at hps
      simp only [hasSub, Bool.or_eq_true] at hpq ⊢
      cases hpq with
      | inl hlead =>
        left
        have hstep : leadMatch (a :: as) (c :: rest) = true := by
          simp only [leadMatch, Bool.and_eq_true, beq_iff_eq]
          exact hps
        exact leadMatch_trans hlead hstep
      | inr hsub => exact Or.inr (ih hps.2 hsub)

theorem hasSub_trans {s p q : List Char} (hsp : hasSub s p = true)
    (hpq : hasSub p q = true) : hasSub s q = true := by
  induction s with
  | nil =>
    have hp : p = [] := leadMatch_nil_eq hsp
    subst hp
    exact hpq
  | cons c rest ih =>
    simp only [hasSub, Bool.or_eq_true] at hsp ⊢
    cases hsp with
    | inl hlead =>
      have := hasSub_of_leadMatch hlead hpq
      simp only [hasSub, Bool.or_eq_true] at this
      exact this
    | inr hsub => exact Or.inr (ih hsub)

theorem leadMatch_map {p s : List Char} (f : Char → Char)
    (h : leadMatch p s = true) : leadMatch (p.map f) (s.map f) = true := by
  induction p generalizing s with
  | nil => rfl
  | cons a as ih =>
    cases s with
    | nil => simp [leadMatch] at h
    | cons b bs =>
      simp only [leadMatch, Bool.and_eq_true, beq_iff_eq] at h
      simp only [List.map, leadMatch, Bool.and_eq_true, beq_iff_eq]
      exact ⟨by rw [h.1], ih h.2⟩

theorem hasSub_map {s pat : List Char} (f : Char → Char)
    (h : hasSub s pat = true) : hasSub (s.map f) (pat.map f) = true := by
  induction s with
  | nil =>
    have hp : pat = [] := leadMatch_nil_eq h
    subst hp
    exact hasSub_nil_pat _
  | cons c rest ih =>
    simp only [hasSub, Bool.or_eq_true] at h
    simp only [List.map, hasSub, Bool.or_eq_true]
    cases h with
    | inl hlead => exact Or.inl (leadMatch_map f hlead)
    | inr hsub => exact Or.inr (ih hsub)

/-! ## C1 -/

/-- C1, counterexample.  The claim "every save of persisted traversal
state is atomic: the file on disk afterwards is either the complete
previous state or the complete new state" is false for the repository's
saves: all three save functions truncate the target file in place and
stream the new document into it, so killing the process mid-save exposes
intermediate contents (here: the empty file left right after the
truncating `open(path, "w")`, and every proper prefix of the new
document). -/
theorem C1_counterexample :
    ¬ (∀ st ∈ save_write_states ("A".toList) ("B".toList),
        st = "A".toList ∨ st = "B".toList) := by
  decide

/-- C1, amended.  Saves are not atomic: a kill during
`_save_checkpoint` / `_save_state` leaves on disk either the previous
contents or some (possibly empty, possibly proper) prefix of the new
document; in particular, whenever the old and new contents are non-empty
there is a kill point whose resulting file is neither the complete
previous nor the complete new state. -/
theorem C1_save_in_place (old new : List Char) (hold : old ≠ []) (hnew : new ≠ []) :
    (∀ st ∈ save_write_states old new, st = old ∨ st <+: new)
    ∧ (∃ st ∈ save_write_states old new, st ≠ old ∧ st ≠ new) := by
  constructor
  · intro st hst
    rcases List.mem_cons.mp hst with h | h
    · exact Or.inl h
    · rcases List.mem_map.mp h with ⟨k, _, hk⟩
      exact Or.inr ⟨new.drop k, by rw [← hk, List.take_append_drop]⟩
  · refine ⟨[], ?_, ?_, ?_⟩
    · apply List.mem_cons.mpr
      right
      exact List.mem_map.mpr ⟨0, List.mem_range.mpr (Nat.succ_pos _), rfl⟩
    · exact fun h => hold h.symm
    · exact fun h => hnew h.symm

/-- C1, witness for `C1_save_in_place` at concrete old/new contents. -/
theorem C1_save_in_place_witness :
    (∀ st ∈ save_write_states ("A".toList) ("B".toList),
        st = "A".toList ∨ st <+: "B".toList)
    ∧ (∃ st ∈ save_write_states ("A".toList) ("B".toList),
        st ≠ "A".toList ∧ st ≠ "B".toList) :=
  C1_save_in_place ("A".toList) ("B".toList) (by decide) (by decide)

/-! ## C2 -/

/-- C2, counterexample.  Against an always-present probe,
`ReportScraper._check_for_bot_challenge` does not block: starting from a
fresh state it consumes exactly two probes (both reporting present),
prompts once, and returns control to its caller — which in scraper.py
ignores the returned Bool (e.g. scraper.py:157,172,2247) and proceeds to
interact with the page.  So the routine does not "return to its caller
only when the probe is false", and an always-present page does not make
the coordinator block forever. -/
theorem C2_counterexample :
    check_for_bot_challenge (fun _ => true) true true false 0 false
      = (true, true, 2) := by
  decide

/-- C2, amended.  Only the Link Scarper enforces the gate, and only when a
bot-check selector is configured: its interaction sites loop
`while self._handle_bot_challenge(): pass`, and that loop (i) never
terminates when every probe reports present, and (ii) whenever it does
terminate, the probe consumed by the final iteration reported absent.
`ReportScraper._check_for_bot_challenge` instead returns after at most one
manual prompt even while the probe still reports present
(`C2_counterexample`). -/
theorem await_clear_ls_succ (probe : Nat → Bool) (f i : Nat) (n : Bool) :
    await_clear_ls true probe (f + 1) i n =
      if probe i = true then await_clear_ls true probe f (i + 1) true
      else some (i + 1, false) := by
  cases hp : probe i <;> simp [await_clear_ls, handle_bot_challenge_ls, hp]

theorem C2_link_gating (probe : Nat → Bool) :
    (∀ fuel i n, (∀ j, probe j = true) → await_clear_ls true probe fuel i n = none)
    ∧ (∀ fuel i n r, await_clear_ls true probe fuel i n = some r →
        probe (r.1 - 1) = false) := by
  constructor
  · intro fuel
    induction fuel with
    | zero => intro i n _; rfl
    | succ f ih =>
      intro i n h
      rw [await_clear_ls_succ, if_pos (h i)]
      exact ih (i + 1) true h
  · intro fuel
    induction fuel with
    | zero => intro i n r h; exact absurd h (by simp [await_clear_ls])
    | succ f ih =>
      intro i n r h
      by_cases hp : probe i = true
      · rw [await_clear_ls_succ, if_pos hp] at h
        exact ih (i + 1) true r h
      · rw [await_clear_ls_succ, if_neg hp] at h
        have hr := Option.some.inj h
        rw [← hr]
        simpa using Bool.not_eq_true _ |>.mp hp

/-- C2, witness for `C2_link_gating`: with an always-present probe the
Link Scarper's gating loop is still blocked after any number of
iterations. -/
theorem C2_link_gating_witness :
    await_clear_ls true (fun _ => true) 5 0 false = none :=
  (C2_link_gating (fun _ => true)).1 5 0 false (fun _ => rfl)

/-! ## C8 -/

/-- C8, counterexample.  With the next button found, enabled, and the page
re-rendering between lookup and click (`StaleElementReferenceException`
raised by `next_button.click()`), `_go_to_next_page` returns `False` —
exactly the value its callers interpret as "no more pages", terminating
the pagination sequence instead of retrying the lookup. -/
theorem C8_counterexample :
    go_to_next_page ⟨LookupOutcome.found true, ClickOutcome.stale, true⟩ = false
    ∧ run_paginate_step ⟨LookupOutcome.found true, ClickOutcome.stale, true⟩
        = PaginateDecision.endOfPages := by
  decide

/-- C8, amended.  A transiently stale next button is not retried: whenever
the click raises `StaleElementReferenceException`, `_go_to_next_page`
returns `False` and the pagination loop ends the page sequence, regardless
of whether the button was present and enabled. -/
theorem C8_stale_ends_pagination (e : NextPageEnv)
    (hclick : e.click = ClickOutcome.stale) :
    go_to_next_page e = false
    ∧ run_paginate_step e = PaginateDecision.endOfPages := by
  have hgo : go_to_next_page e = false := by
    rcases e with ⟨lookup, click, tr⟩
    cases hclick
    cases lookup with
    | missing => rfl
    | found enabled => cases enabled <;> rfl
  exact ⟨hgo, by simp [run_paginate_step, hgo]⟩

/-- C8, witness for `C8_stale_ends_pagination`. -/
theorem C8_stale_ends_pagination_witness :
    go_to_next_page ⟨LookupOutcome.found true, ClickOutcome.stale, false⟩ = false
    ∧ run_paginate_step ⟨LookupOutcome.found true, ClickOutcome.stale, false⟩
        = PaginateDecision.endOfPages :=
  C8_stale_ends_pagination ⟨LookupOutcome.found true, ClickOutcome.stale, false⟩ rfl

/-! ## C9 -/

/-- The report scraper's text probe is determined by the case-normalised
page text: the case-sensitive fallback patterns are subsumed by the
`translate(...)`-based check. -/
theorem scraper_text_challenge_lower (t : List Char) :
    scraper_text_challenge t =
      (hasSub (lowerStr t) ("we noticed".toList)
        && hasSub (lowerStr t) ("requests".toList)) := by
  have key : ∀ pat : List Char,
      lowerStr pat = ("we noticed a large number of requests".toList) ∨
      lowerStr pat = ("we noticed large number of requests".toList) →
      hasSub t pat = true →
      (hasSub (lowerStr t) ("we noticed".toList)
        && hasSub (lowerStr t) ("requests".toList)) = true := by
    intro pat hpat hsub
    have hlow : hasSub (lowerStr t) (lowerStr pat) = true := hasSub_map lowerChar hsub
    rcases hpat with hp | hp <;> rw [hp] at hlow <;>
      exact Bool.and_eq_true_iff.mpr
        ⟨hasSub_trans hlow (by decide), hasSub_trans hlow (by decide)⟩
  unfold scraper_text_challenge
  cases hA : (hasSub (lowerStr t) ("we noticed".toList)
      && hasSub (lowerStr t) ("requests".toList)) with
  | true => simp
  | false =>
    cases h1 : hasSub t ("We noticed a large number of requests".toList) with
    | true => rw [key _ (Or.inl (by decide)) h1] at hA; cases hA
    | false =>
      cases h2 : hasSub t ("We noticed large number of requests".toList) with
      | true => rw [key _ (Or.inr (by decide)) h2] at hA; cases hA
      | false => simp

/-- C9, counterexample.  The Link Scarper's probe
(`_is_bot_challenge_present`, `Link Scarper/any_run_scraper.py`:415-453)
matches its challenge text patterns case-sensitively: the page texts
`"Suspicious activity"` and `"SUSPICIOUS ACTIVITY"` are casing variants of
the same indicator phrase, yet the probe detects the first and misses the
second — so the probe does not return the same result for every casing
variant. -/
theorem C9_counterexample :
    lowerStr ("SUSPICIOUS ACTIVITY".toList) = lowerStr ("Suspicious activity".toList)
    ∧ link_text_challenge ("Suspicious activity".toList) = true
    ∧ link_text_challenge ("SUSPICIOUS ACTIVITY".toList) = false := by
  decide

/-- C9, amended.  Only `ReportScraper._is_bot_challenge_present`
normalises case before matching: its text-pattern result depends on the
page text only through its case-normalised form, so casing variants of an
indicator phrase give the same result.  The Link Scarper's probe matches
its text patterns case-sensitively (`C9_counterexample`). -/
theorem C9_scraper_case_insensitive (t₁ t₂ : List Char)
    (h : lowerStr t₁ = lowerStr t₂) :
    scraper_text_challenge t₁ = scraper_text_challenge t₂ := by
  rw [scraper_text_challenge_lower, scraper_text_challenge_lower, h]

/-- C9, witness for `C9_scraper_case_insensitive` on two casing variants
of the report scraper's indicator phrase. -/
theorem C9_scraper_case_insensitive_witness :
    scraper_text_challenge ("WE NOTICED a large number of REQUESTS".toList)
      = scraper_text_challenge ("we Noticed A Large Number Of Requests".toList) :=
  C9_scraper_case_insensitive _ _ (by decide)

/-! ## Helper lemmas for state round-trips -/

theorem mem_foldl_insert {l acc : List String} {a : String} (h : a ∈ acc) :
    a ∈ l.foldl (fun s u => s.insert u) acc := by
  induction l generalizing acc with
  | nil => exact h
  | cons b bs ih => exact ih (List.mem_insert_of_mem h)

theorem mem_foldl_insert_iff {l acc : List String} {a : String} :
    a ∈ l.foldl (fun s u => s.insert u) acc ↔ a ∈ acc ∨ a ∈ l := by
  induction l generalizing acc with
  | nil => simp
  | cons b bs ih =>
    simp only [List.foldl_cons, ih, List.mem_insert_iff, List.mem_cons]
    tauto

theorem mem_insertSorted {a x : String} {l : List String} :
    x ∈ insertSorted a l ↔ x = a ∨ x ∈ l := by
  induction l with
  | nil => simp [insertSorted]
  | cons b bs ih =>
    by_cases hle : leStr a b = true
    · simp [insertSorted, hle]
    · simp only [insertSorted, hle, Bool.false_eq_true, if_false, List.mem_cons, ih]
      tauto

theorem mem_sortedStrings {x : String} {l : List String} :
    x ∈ sortedStrings l ↔ x ∈ l := by
  induction l with
  | nil => exact Iff.rfl
  | cons a as ih => simp [sortedStrings, mem_insertSorted, ih]

theorem strElems_map_str (l : List String) : strElems (l.map JValue.str) = l := by
  induction l with
  | nil => rfl
  | cons a as ih => simp [strElems, ih]

theorem load_cursor_ar_collected (doc : JDoc) (s : AnyRunState) :
    (load_cursor_ar doc s).collected_urls = s.collected_urls := by
  unfold load_cursor_ar
  split <;> try rfl
  split <;> try rfl
  split <;> try rfl
  split <;> rfl

theorem load_state_ls_collected (doc : JDoc) (s : LinkState) :
    (load_state_ls doc s).collected_urls = load_collected doc s.collected_urls := by
  unfold load_state_ls
  split <;> rfl

theorem jget_save_ar_collected (s : AnyRunState) (t : Nat) (extra : JDoc) :
    jget (save_state_ar s t ++ extra) "collected_urls"
      = some (JValue.arr ((sortedStrings s.collected_urls).map JValue.str)) := rfl

theorem jget_save_ar_last (s : AnyRunState) (t : Nat) (extra : JDoc) :
    jget (save_state_ar s t ++ extra) "last_processed_date"
      = some (match s.last_processed_date with
              | some d => JValue.str d
              | none => JValue.null) := rfl

theorem jget_save_ls_collected (s : LinkState) (t : Nat) (extra : JDoc) :
    jget (save_state_ls s t ++ extra) "collected_urls"
      = some (JValue.arr ((sortedStrings s.collected_urls).map JValue.str)) := rfl

theorem jget_save_ls_pages (s : LinkState) (t : Nat) (extra : JDoc) :
    jget (save_state_ls s t ++ extra) "pages_processed"
      = some (JValue.nat s.pages_processed) := rfl

theorem load_collected_save_ar (s : AnyRunState) (t : Nat) (extra : JDoc) (u : String) :
    u ∈ load_collected (save_state_ar s t ++ extra) [] ↔ u ∈ s.collected_urls := by
  show u ∈ (strElems ((sortedStrings s.collected_urls).map JValue.str)).foldl
      (fun l u => l.insert u) [] ↔ u ∈ s.collected_urls
  rw [strElems_map_str, mem_foldl_insert_iff, mem_sortedStrings]
  simp

theorem load_collected_save_ls (s : LinkState) (t : Nat) (extra : JDoc) (u : String) :
    u ∈ load_collected (save_state_ls s t ++ extra) [] ↔ u ∈ s.collected_urls := by
  show u ∈ (strElems ((sortedStrings s.collected_urls).map JValue.str)).foldl
      (fun l u => l.insert u) [] ↔ u ∈ s.collected_urls
  rw [strElems_map_str, mem_foldl_insert_iff, mem_sortedStrings]
  simp

theorem load_cursor_ar_of_null (doc : JDoc) (s : AnyRunState)
    (hj : jget doc "last_processed_date" = some JValue.null) :
    load_cursor_ar doc s = s := by
  unfold load_cursor_ar
  rw [hj]

theorem load_cursor_ar_last_str (doc : JDoc) (s : AnyRunState) (d : String)
    (hj : jget doc "last_processed_date" = some (JValue.str d)) (hd : d ≠ "") :
    (load_cursor_ar doc s).last_processed_date = some d := by
  unfold load_cursor_ar
  rw [hj]
  dsimp only
  rw [if_pos hd]
  split
  · rfl
  · split <;> rfl

/-! ## C3 -/

/-- C3, counterexample.  A reachable state of the date-bucket scraper —
day `2025-10-12` fully processed (its last row displayed
`"12 October 2025, 14:30"`), cursor already advanced to the `2025-10-11`
bucket whose first page had no rows — does not round-trip: `_load_state`
never reads the persisted `current_scraping_date` field and instead
re-parses the last-row display text, so the restored resume day is
`2025-10-12`, not the saved cursor's `2025-10-11`. -/
theorem C3_counterexample :
    ¬ ((load_state_ar
          (save_state_ar
            ⟨["https://app.any.run/tasks/aa"],
             some "12 October 2025, 14:30", some ⟨2025, 10, 11⟩⟩ 0)
          freshAnyRunState).current_scraping_date
        = (⟨["https://app.any.run/tasks/aa"],
            some "12 October 2025, 14:30",
            some ⟨2025, 10, 11⟩⟩ : AnyRunState).current_scraping_date) := by
  decide

/-- C3, amended.  The persisted checkpoint round-trips the collected
identifier set (as a set) and the raw `last_processed_date` text, and
both loaders tolerate extra unknown fields appended to the document; the
Link Scarper also round-trips its page cursor.  But the date-bucket
scraper's resume day is NOT restored from the persisted cursor field — it
is re-derived by parsing the last-row display text
(`C3_counterexample`). -/
theorem C3_partial_roundtrip (s : AnyRunState) (ls : LinkState) (t : Nat)
    (extra : JDoc) (hlast : s.last_processed_date ≠ some "") :
    (∀ u, u ∈ (load_state_ar (save_state_ar s t ++ extra) freshAnyRunState).collected_urls
        ↔ u ∈ s.collected_urls)
    ∧ (load_state_ar (save_state_ar s t ++ extra) freshAnyRunState).last_processed_date
        = s.last_processed_date
    ∧ (∀ u, u ∈ (load_state_ls (save_state_ls ls t ++ extra) freshLinkState).collected_urls
        ↔ u ∈ ls.collected_urls)
    ∧ (load_state_ls (save_state_ls ls t ++ extra) freshLinkState).pages_processed
        = ls.pages_processed := by
  refine ⟨?_, ?_, ?_, ?_⟩
  · intro u
    show u ∈ (load_cursor_ar _ _).collected_urls ↔ _
    rw [load_cursor_ar_collected]
    exact load_collected_save_ar s t extra u
  · show (load_cursor_ar _ _).last_processed_date = _
    cases hl : s.last_processed_date with
    | none =>
      have hj : jget (save_state_ar s t ++ extra) "last_processed_date"
          = some JValue.null := by rw [jget_save_ar_last, hl]
      rw [load_cursor_ar_of_null _ _ hj]
      rfl
    | some d =>
      have hd : d ≠ "" := fun he => hlast (by rw [hl, he])
      have hj : jget (save_state_ar s t ++ extra) "last_processed_date"
          = some (JValue.str d) := by rw [jget_save_ar_last, hl]
      rw [load_cursor_ar_last_str _ _ d hj hd]
  · intro u
    rw [load_state_ls_collected]
    exact load_collected_save_ls ls t extra u
  · unfold load_state_ls
    rw [jget_save_ls_pages]

/-- C3, witness for `C3_partial_roundtrip` at a concrete state and an
extra unknown field. -/
theorem C3_partial_roundtrip_witness :
    (∀ u, u ∈ (load_state_ar
          (save_state_ar
            ⟨["https://app.any.run/tasks/aa"],
             some "12 October 2025, 14:30", some ⟨2025, 10, 12⟩⟩ 3
            ++ [("future_field", JValue.nat 7)])
          freshAnyRunState).collected_urls
        ↔ u ∈ (⟨["https://app.any.run/tasks/aa"],
            some "12 October 2025, 14:30",
            some ⟨2025, 10, 12⟩⟩ : AnyRunState).collected_urls)
    ∧ (load_state_ar
          (save_state_ar
            ⟨["https://app.any.run/tasks/aa"],
             some "12 October 2025, 14:30", some ⟨2025, 10, 12⟩⟩ 3
            ++ [("future_field", JValue.nat 7)])
          freshAnyRunState).last_processed_date
        = (⟨["https://app.any.run/tasks/aa"],
            some "12 October 2025, 14:30",
            some ⟨2025, 10, 12⟩⟩ : AnyRunState).last_processed_date
    ∧ (∀ u, u ∈ (load_state_ls
          (save_state_ls ⟨["https://app.any.run/tasks/bb"], 4⟩ 3
            ++ [("future_field", JValue.nat 7)])
          freshLinkState).collected_urls
        ↔ u ∈ (⟨["https://app.any.run/tasks/bb"], 4⟩ : LinkState).collected_urls)
    ∧ (load_state_ls
          (save_state_ls ⟨["https://app.any.run/tasks/bb"], 4⟩ 3
            ++ [("future_field", JValue.nat 7)])
          freshLinkState).pages_processed
        = (⟨["https://app.any.run/tasks/bb"], 4⟩ : LinkState).pages_processed :=
  C3_partial_roundtrip
    ⟨["https://app.any.run/tasks/aa"], some "12 October 2025, 14:30", some ⟨2025, 10, 12⟩⟩
    ⟨["https://app.any.run/tasks/bb"], 4⟩ 3 [("future_field", JValue.nat 7)] (by decide)

/-! ## Helper lemmas for C4 -/

theorem skip_loop_advances_le (rd : Nat → Option Nat) (adv : Nat → Bool) (t : Nat) :
    ∀ f i, (skip_loop rd adv t f i).advances ≤ f := by
  intro f
  induction f with
  | zero => intro i; exact Nat.le_refl 0
  | succ n ih =>
    intro i
    simp only [skip_loop]
    cases hr : rd i with
    | none =>
      cases ha : adv i with
      | true => simp only [ha, if_true]; exact Nat.succ_le_succ (ih (i + 1))
      | false => simp only [ha]; exact Nat.succ_le_succ (Nat.zero_le n)
    | some v =>
      by_cases hv : v ≥ t
      · simp [hv]
      · cases ha : adv i with
        | true => simp only [hv, if_false, ha, if_true]; exact Nat.succ_le_succ (ih (i + 1))
        | false => simp only [hv, if_false, ha]; exact Nat.succ_le_succ (Nat.zero_le n)

theorem skip_loop_exhaust (rd : Nat → Option Nat) (adv : Nat → Bool) (t : Nat)
    (hrd : ∀ j v, rd j = some v → v < t) (hadv : ∀ j, adv j = true) :
    ∀ f i, skip_loop rd adv t f i = ⟨false, f⟩ := by
  intro f
  induction f with
  | zero => intro i; rfl
  | succ n ih =>
    intro i
    simp only [skip_loop, hadv i, if_true]
    cases hr : rd i with
    | none => simp [ih]
    | some v =>
      have hv := hrd i v hr
      simp [Nat.not_le.mpr hv, ih]

/-! ## C4 -/

/-- C4, confirmed.  `_skip_processed_pages` with cursor `N = n`:
(i) if the live page reading already reaches the target `N + 1`, it
reports aligned with zero advance attempts; (ii) with a live reading `c`
the number of `_go_to_next_page` attempts is bounded by
`max ((N + 1 - c) + 3) 5`, and (iii) without a live reading by
`max (N + 3) 5`; (iv) if the live page stays behind the target and every
advance succeeds, the budget is spent exactly and the function declares
resume failure (`aligned = false`). -/
theorem C4_resume_reconciliation :
    (∀ (n c : Nat) (rd : Nat → Option Nat) (adv : Nat → Bool),
        n + 1 ≤ c →
        skip_processed_pages n (some c) rd adv = ⟨true, 0⟩)
    ∧ (∀ (n c : Nat) (rd : Nat → Option Nat) (adv : Nat → Bool),
        (skip_processed_pages n (some c) rd adv).advances ≤ max ((n + 1 - c) + 3) 5)
    ∧ (∀ (n : Nat) (rd : Nat → Option Nat) (adv : Nat → Bool),
        (skip_processed_pages n none rd adv).advances ≤ max (n + 3) 5)
    ∧ (∀ (n c : Nat) (rd : Nat → Option Nat) (adv : Nat → Bool),
        n ≠ 0 → c < n + 1 →
        (∀ j v, rd j = some v → v < n + 1) → (∀ j, adv j = true) →
        skip_processed_pages n (some c) rd adv = ⟨false, max ((n + 1 - c) + 3) 5⟩) := by
  refine ⟨?_, ?_, ?_, ?_⟩
  · intro n c rd adv hc
    unfold skip_processed_pages
    by_cases hn : n = 0
    · simp [hn]
    · simp [hn, hc]
  · intro n c rd adv
    unfold skip_processed_pages
    by_cases hn : n = 0
    · simp [hn]
    · simp only [hn, if_false]
      by_cases hc : c ≥ n + 1
      · simp [hc]
      · simp only [hc, if_false]
        by_cases hz : n + 1 - c = 0
        · simp [hz]
        · simp only [hz, if_false]
          exact skip_loop_advances_le rd adv (n + 1) _ 0
  · intro n rd adv
    unfold skip_processed_pages
    by_cases hn : n = 0
    · simp [hn]
    · simp only [hn, if_false]
      exact skip_loop_advances_le rd adv (n + 1) _ 0
  · intro n c rd adv hn hc hrd hadv
    unfold skip_processed_pages
    have hcge : ¬ c ≥ n + 1 := Nat.not_le.mpr hc
    have hz : n + 1 - c ≠ 0 := Nat.sub_ne_zero_of_lt hc
    simp only [hn, if_false, hcge, hz]
    exact skip_loop_exhaust rd adv (n + 1) hrd hadv _ 0

/-- C4, witness for `C4_resume_reconciliation`: cursor 3 and live page 4
align at once; cursor 3 and live page stuck at 1 exhausts the budget
`max ((3 + 1 - 1) + 3) 5 = 6` and reports resume failure. -/
theorem C4_resume_reconciliation_witness :
    skip_processed_pages 3 (some 4) (fun _ => none) (fun _ => true) = ⟨true, 0⟩
    ∧ skip_processed_pages 3 (some 1) (fun _ => some 1) (fun _ => true)
        = ⟨false, max ((3 + 1 - 1) + 3) 5⟩ :=
  ⟨C4_resume_reconciliation.1 3 4 (fun _ => none) (fun _ => true) (by decide),
   C4_resume_reconciliation.2.2.2 3 1 (fun _ => some 1) (fun _ => true)
     (by decide) (by decide)
     (fun j v h => by cases h; decide) (fun _ => rfl)⟩

/-! ## Helper lemmas for C5 -/

theorem run_step_inv (env : ScrapeEnv) (st : RunState) (url : String)
    (h : processed_files_inv st) : processed_files_inv (run_step env st url) := by
  obtain ⟨h1, h2⟩ := h
  unfold run_step
  cases he : extract_task_id url with
  | none =>
    simp only [scrape_report, he]
    exact ⟨fun u hu => by
        obtain ⟨tt, ht, hf⟩ := h1 u hu
        exact ⟨tt, ht, by simp [hf]⟩,
      h2⟩
  | some tid =>
    cases hp : env.pageLoads url with
    | false =>
      simp only [scrape_report, he, hp, Bool.false_eq_true, if_false]
      exact ⟨fun u hu => by
          obtain ⟨tt, ht, hf⟩ := h1 u hu
          exact ⟨tt, ht, by simp [hf]⟩,
        h2⟩
    | true =>
      simp only [scrape_report, he, hp, if_true]
      constructor
      · intro u hu
        rcases List.mem_insert_iff.mp hu with rfl | hu'
        · exact ⟨tid, he, by simp⟩
        · obtain ⟨tt, ht, hf⟩ := h1 u hu'
          exact ⟨tt, ht, by simp [hf]⟩
      · intro u hu
        by_cases hc : env.ckptWriteOk st.saves = true
        · simp only [hc, if_true] at hu
          exact hu
        · simp only [hc, Bool.false_eq_true, if_false] at hu
          exact List.mem_insert_of_mem (h2 u hu)

theorem run_urls_inv (env : ScrapeEnv) (urls : List String) :
    ∀ st, processed_files_inv st → processed_files_inv (run_urls env urls st) := by
  induction urls with
  | nil => intro st h; exact h
  | cons u us ih => intro st h; exact ih _ (run_step_inv env st u h)

/-! ## C5 -/

/-- C5, counterexample.  One URL, a successful scrape, and a
checkpoint-save failure (an `OSError` that `_save_checkpoint` catches and
merely logs): the record file `ab12_report.json` exists and the URL is in
the in-memory processed set, yet the checkpoint file on disk still holds
the old (empty) URL list.  So the parenthetical "and hence to the saved
checkpoint" fails, and after a restart (`_load_checkpoint` reads the disk)
the record file's presence is not equivalent to membership in the
processed set. -/
theorem C5_counterexample :
    (run_main ⟨fun _ => true, fun _ => false⟩ ["https://app.any.run/tasks/ab12"]
        ⟨[], [], [], 0⟩).processed_urls = ["https://app.any.run/tasks/ab12"]
    ∧ (run_main ⟨fun _ => true, fun _ => false⟩ ["https://app.any.run/tasks/ab12"]
        ⟨[], [], [], 0⟩).files = ["ab12_report.json"]
    ∧ (run_main ⟨fun _ => true, fun _ => false⟩ ["https://app.any.run/tasks/ab12"]
        ⟨[], [], [], 0⟩).disk = [] := by
  decide

/-- C5, amended.  Within a run the forward direction holds: a URL enters
the in-memory processed set only after its record file has been written
(every processed URL has an extractable task id whose record file is among
the written files), and the on-disk checkpoint only ever holds processed
URLs.  The converse equivalence of the original claim fails
(`C5_counterexample`): a swallowed checkpoint-save failure leaves a record
file present while the saved checkpoint lacks the URL. -/
theorem C5_record_before_processed (env : ScrapeEnv) (urls : List String)
    (st : RunState) (h : processed_files_inv st) :
    processed_files_inv (run_main env urls st) :=
  run_urls_inv env (urls.filter (fun u => decide (u ∉ st.processed_urls))) st h

/-- C5, witness for `C5_record_before_processed` starting from the empty
state. -/
theorem C5_record_before_processed_witness :
    processed_files_inv (run_main ⟨fun _ => true, fun _ => true⟩
      ["https://app.any.run/tasks/ab12"] ⟨[], [], [], 0⟩) :=
  C5_record_before_processed ⟨fun _ => true, fun _ => true⟩
    ["https://app.any.run/tasks/ab12"] ⟨[], [], [], 0⟩
    ⟨fun u hu => absurd hu (List.not_mem_nil u),
     fun u hu => absurd hu (List.not_mem_nil u)⟩

/-! ## Helper lemmas for C6 -/

theorem run_challenge_calls_delivery (probes : List (Bool × Bool)) :
    ∀ (d d' : Nat → Bool) (n : Bool) (i : Nat),
      run_challenge_calls true d probes n i = run_challenge_calls true d' probes n i := by
  induction probes with
  | nil => intro d d' n i; rfl
  | cons p ps ih =>
    intro d d' n i
    cases hp : p.1 <;>
      simp only [run_challenge_calls, handle_bot_challenge_ar, hp] <;>
      rw [ih d d']

theorem run_challenge_calls_alerts (probes : List (Bool × Bool)) :
    ∀ (d : Nat → Bool) (n : Bool) (i : Nat),
      (run_challenge_calls true d probes n i).2 = rising_edges n (probes.map Prod.fst) := by
  induction probes with
  | nil => intro d n i; rfl
  | cons p ps ih =>
    intro d n i
    cases hp : p.1 <;> cases n <;>
      simp [run_challenge_calls, handle_bot_challenge_ar, rising_edges, hp, ih]

theorem run_challenge_calls_flag (probes : List (Bool × Bool)) :
    ∀ (d : Nat → Bool) (n : Bool) (i : Nat),
      (run_challenge_calls true d probes n i).1
        = (probes.map Prod.fst).foldl (fun _ p => p) n := by
  induction probes with
  | nil => intro d n i; rfl
  | cons p ps ih =>
    intro d n i
    cases hp : p.1 <;>
      simp [run_challenge_calls, handle_bot_challenge_ar, hp, ih]

/-! ## C6 -/

/-- C6, confirmed.  Over any sequence of `_handle_bot_challenge` calls
with SMTP configured: (i) the traversal behaviour is identical whatever
the delivery outcomes are — a failed alert is logged and swallowed, never
propagated; (ii) the total number of alert attempts equals the number of
challenge occurrences (maximal blocks of present-probes, counted by
`rising_edges`), i.e. exactly one alert per occurrence; (iii) the
already-notified flag always equals the last probe result, so it is reset
exactly when the probe returns false; and (iv) scraper.py's
`_notify_bot_challenge` never re-sends while the flag is set. -/
theorem C6_one_alert_per_occurrence (probes : List (Bool × Bool))
    (d d' : Nat → Bool) (n : Bool) (i : Nat) (smtp dv : Bool) :
    run_challenge_calls true d probes n i = run_challenge_calls true d' probes n i
    ∧ (run_challenge_calls true d probes n i).2 = rising_edges n (probes.map Prod.fst)
    ∧ (run_challenge_calls true d probes n i).1
        = (probes.map Prod.fst).foldl (fun _ p => p) n
    ∧ notify_bot_challenge_rs smtp dv true = (true, 0) :=
  ⟨run_challenge_calls_delivery probes d d' n i,
   run_challenge_calls_alerts probes d n i,
   run_challenge_calls_flag probes d n i, rfl⟩

/-! ## Helper lemmas for C7 -/

theorem mem_collect_links {links : List (Option String)} :
    ∀ {acc : List String} {u : String}, u ∈ acc → u ∈ collect_links acc links := by
  induction links with
  | nil => intro acc u h; exact h
  | cons l rest ih =>
    intro acc u h
    cases l with
    | none => exact ih h
    | some href =>
      by_cases hok : href_ok href = true
      · simp only [collect_links, hok, if_true]
        exact ih (List.mem_insert_of_mem h)
      · simp only [collect_links]
        rw [if_neg hok]
        exact ih h

theorem collect_links_absorbed {links : List (Option String)} :
    ∀ {acc : List String},
      (∀ href : String, some href ∈ links → href_ok href = true → href ∈ acc) →
      collect_links acc links = acc := by
  induction links with
  | nil => intro acc _; rfl
  | cons l rest ih =>
    intro acc h
    cases l with
    | none => exact ih (fun href hm hok => h href (List.mem_cons_of_mem _ hm) hok)
    | some href =>
      by_cases hok : href_ok href = true
      · have hmem : href ∈ acc := h href (List.mem_cons_self _ _) hok
        simp only [collect_links, hok, if_true, List.insert_of_mem hmem]
        exact ih (fun hr hm ho => h hr (List.mem_cons_of_mem _ hm) ho)
      · simp only [collect_links]
        rw [if_neg hok]
        exact ih (fun hr hm ho => h hr (List.mem_cons_of_mem _ hm) ho)

theorem mem_collect_page {rows : List (List (Option String))} :
    ∀ {acc : List String} {u : String},
      u ∈ acc → u ∈ collect_current_page_urls acc rows := by
  induction rows with
  | nil => intro acc u h; exact h
  | cons row rows ih => intro acc u h; exact ih (mem_collect_links h)

theorem collect_page_absorbed {rows : List (List (Option String))} :
    ∀ {acc : List String},
      (∀ row ∈ rows, ∀ href : String,
        some href ∈ row → href_ok href = true → href ∈ acc) →
      collect_current_page_urls acc rows = acc := by
  induction rows with
  | nil => intro acc _; rfl
  | cons row rows ih =>
    intro acc h
    have hrow : collect_links acc row = acc :=
      collect_links_absorbed (fun href hm hok => h row (List.mem_cons_self _ _) href hm hok)
    show collect_current_page_urls (collect_links acc row) rows = acc
    rw [hrow]
    exact ih (fun r hr href hm hok => h r (List.mem_cons_of_mem _ hr) href hm hok)

theorem load_collected_mono (doc : JDoc) {cur : List String} {u : String}
    (h : u ∈ cur) : u ∈ load_collected doc cur := by
  unfold load_collected
  split
  · exact mem_foldl_insert h
  · exact h

/-! ## C7 -/

/-- C7, confirmed.  The collected URL set is monotonically non-shrinking:
(i) scanning a page's rows only ever adds elements; (ii) if every valid
link of the page is already collected — in particular a link encountered
again on a later page — the scan leaves the set exactly unchanged (so its
size does not change); (iii) and (iv) loading persisted state only adds
elements, in both scrapers.  Saving (`_save_state` / `_persist_progress`)
takes the state as read-only input, so it cannot shrink the set. -/
theorem C7_collected_monotone :
    (∀ (rows : List (List (Option String))) (acc : List String) (u : String),
        u ∈ acc → u ∈ collect_current_page_urls acc rows)
    ∧ (∀ (rows : List (List (Option String))) (acc : List String),
        (∀ row ∈ rows, ∀ href : String,
          some href ∈ row → href_ok href = true → href ∈ acc) →
        collect_current_page_urls acc rows = acc)
    ∧ (∀ (doc : JDoc) (s : AnyRunState) (u : String),
        u ∈ s.collected_urls → u ∈ (load_state_ar doc s).collected_urls)
    ∧ (∀ (doc : JDoc) (s : LinkState) (u : String),
        u ∈ s.collected_urls → u ∈ (load_state_ls doc s).collected_urls) := by
  refine ⟨fun rows acc u h => mem_collect_page h,
          fun rows acc h => collect_page_absorbed h, ?_, ?_⟩
  · intro doc s u h
    show u ∈ (load_cursor_ar doc _).collected_urls
    rw [load_cursor_ar_collected]
    exact load_collected_mono doc h
  · intro doc s u h
    rw [load_state_ls_collected]
    exact load_collected_mono doc h

/-- C7, witness for `C7_collected_monotone`: a URL already collected is
still collected after re-scanning a page that repeats it, and that re-scan
leaves the set exactly as it was. -/
theorem C7_collected_monotone_witness :
    "https://app.any.run/tasks/aa" ∈
      collect_current_page_urls ["https://app.any.run/tasks/aa"]
        [[some "https://app.any.run/tasks/aa"]]
    ∧ collect_current_page_urls ["https://app.any.run/tasks/aa"]
        [[some "https://app.any.run/tasks/aa"]]
      = ["https://app.any.run/tasks/aa"] :=
  ⟨C7_collected_monotone.1 _ _ _ (by decide),
   C7_collected_monotone.2.1 _ _ (by
     intro row hrow href hm hok
     simp only [List.mem_singleton] at hrow
     subst hrow
     simp only [List.mem_singleton, Option.some.injEq] at hm
     subst hm
     simp)⟩

/-! ## C10 -/

/-- C10, confirmed.  For a URL with no extractable `/tasks/<id>` segment,
`scrape_report` returns `None` with zero navigations and no record file
written, and the main loop leaves the processed set, the written files and
the checkpoint untouched. -/
theorem C10_no_task_id (url : String) (h : extract_task_id url = none)
    (pl : String → Bool) (env : ScrapeEnv) (st : RunState) :
    scrape_report pl url = (none, [], 0) ∧ run_step env st url = st := by
  have hs : ∀ f : String → Bool, scrape_report f url = (none, [], 0) := by
    intro f; simp [scrape_report, h]
  refine ⟨hs pl, ?_⟩
  obtain ⟨a, b, c, d⟩ := st
  simp [run_step, hs env.pageLoads]

/-- C10, witness for `C10_no_task_id` on a URL without a task segment. -/
theorem C10_no_task_id_witness :
    scrape_report (fun _ => true) "https://app.any.run/plans" = (none, [], 0)
    ∧ run_step ⟨fun _ => true, fun _ => true⟩ ⟨[], [], [], 0⟩
        "https://app.any.run/plans" = ⟨[], [], [], 0⟩ :=
  C10_no_task_id "https://app.any.run/plans" (by decide) (fun _ => true)
    ⟨fun _ => true, fun _ => true⟩ ⟨[], [], [], 0⟩
